import Mathlib

/-!
Shallow embedding of the `pdf_extract_and_translate` repository
(translators: `manager.py`, `language_detector.py`, `deep_translator_wrapper.py`;
extractors: `registry.py`, `tesseract_extractor.py`, `azure_ocr_extractor.py`)
together with theorems settling the specification claims about it.

Python duck-typed arguments are modelled by `PyVal` (None, a string, or a
representative non-string value); Python exceptions by `PyExc`, recording the
exception class, the message `str(e)`, and the `__cause__` chain set by
`raise ... from e`.  External collaborators (the langdetect model, the
deep-translator backend, the filesystem, the OCR engines, `os.environ`) are
parameters of the embedded functions, exactly where the Python code calls out
of the repository.
-/

/-- A Python value as passed to the repository's duck-typed entry points:
`None`, a `str`, or a representative non-string, non-None value (an `int`). -/
inductive PyVal where
  | none
  | str (s : String)
  | intVal (n : Int)
deriving DecidableEq, Repr

/-- Python's `type(x).__name__` for the values we model. -/
def PyVal.typeName : PyVal → String
  | .none => "NoneType"
  | .str _ => "str"
  | .intVal _ => "int"

/-- Python truthiness for the values we model: `None` and `0` are falsy,
a string is falsy exactly when it is empty. -/
def PyVal.truthy : PyVal → Bool
  | .none => false
  | .str s => s ≠ ""
  | .intVal n => n ≠ 0

/-- Whether the value is a `str` (Python `isinstance(x, str)`). -/
def PyVal.isStr : PyVal → Bool
  | .str _ => true
  | _ => false

/-- The `str` payload of a value known to be a string (used only in branches
guarded by `isStr`). -/
def PyVal.asStr : PyVal → String
  | .str s => s
  | _ => ""

/-- The Python exception classes raised or caught by this repository.
`genericExc` stands for any other class an external library may raise. -/
inductive PyClass where
  | valueError
  | fileNotFoundError
  | langDetectException
  | genericExc (clsName : String)
deriving DecidableEq, Repr

/-- One exception object: its class and its message (`str(e)`). -/
structure ExcInfo where
  cls : PyClass
  msg : String
deriving DecidableEq, Repr

/-- A raised Python exception together with its `__cause__` chain
(outermost cause first), as produced by `raise X from e`. -/
structure PyExc where
  main : ExcInfo
  causes : List ExcInfo
deriving DecidableEq, Repr

/-- `raise ValueError(msg)` with no cause. -/
def pyRaise (cls : PyClass) (msg : String) : PyExc := ⟨⟨cls, msg⟩, []⟩

/-- `raise cls(msg) from e`: the new exception's cause chain starts with the
exception `e` being wrapped. -/
def pyRaiseFrom (cls : PyClass) (msg : String) (e : PyExc) : PyExc :=
  ⟨⟨cls, msg⟩, e.main :: e.causes⟩

/-- Python `str.strip()` with no arguments: drop leading and trailing
whitespace.  `Char.isWhitespace` covers space, tab, CR and LF; the additional
characters Python strips (`\x0b`, `\x0c`, Unicode spaces) do not occur in any
input these claims quantify over. -/
def pyStrip (s : String) : String :=
  String.mk (((s.data.dropWhile Char.isWhitespace).reverse.dropWhile
    Char.isWhitespace).reverse)

/-- Python `str.lower()`; the two agree on the ASCII strings in play. -/
def pyLower (s : String) : String := String.mk (s.data.map Char.toLower)

/-- Python `sub in s` substring membership: some tail of `s` starts with
`sub` (in particular the empty string is contained in every string). -/
def pyContains (s sub : String) : Bool :=
  s.data.tails.any fun t => sub.data.isPrefixOf t

/-- Python `str.splitlines()`, restricted to the line terminators `\n`,
`\r\n` and `\r` (the exotic terminators `\v`, `\f`, `\x1c`–`\x1e`, `\x85`,
U+2028, U+2029 recognised by CPython are omitted; no input in these claims
uses them).  A trailing terminator does not produce a final empty line. -/
def pySplitlinesList : List Char → List Char → List String
  | [], acc => if acc.isEmpty then [] else [String.mk acc.reverse]
  | '\r' :: '\n' :: rest, acc => String.mk acc.reverse :: pySplitlinesList rest []
  | '\r' :: rest, acc => String.mk acc.reverse :: pySplitlinesList rest []
  | '\n' :: rest, acc => String.mk acc.reverse :: pySplitlinesList rest []
  | c :: rest, acc => pySplitlinesList rest (c :: acc)

/-- Python `text.splitlines()` (see `pySplitlinesList`). -/
def pySplitlines (s : String) : List String := pySplitlinesList s.data []


/-!  ## `src/translators/language_detector.py` — `LangDetectDetector.detect`

The external statistical model (`langdetect.detect`) is a parameter
`oracle : String → Except PyExc String`; on failure the library raises
`LangDetectException` (class `PyClass.langDetectException`).  The Python
method catches exactly that class and re-raises it as a `ValueError` with
the wrapped exception as `__cause__`; any other exception class from the
model would propagate unchanged. -/

def LangDetectDetector.detect (oracle : String → Except PyExc String)
    (text : PyVal) : Except PyExc String :=
  match text with
  | .none => .error (pyRaise .valueError "Text cannot be None")
  | .str s =>
    let stripped := pyStrip s
    if stripped = "" then
      .error (pyRaise .valueError "Text cannot be empty or contain only whitespace")
    else
      match oracle stripped with
      | .ok language_code => .ok language_code
      | .error e =>
        if e.main.cls = .langDetectException then
          .error (pyRaiseFrom .valueError ("Could not detect language: " ++ e.main.msg) e)
        else
          .error e
  | v => .error (pyRaise .valueError ("Text must be a string, got " ++ v.typeName))

/-!  ## `src/translators/deep_translator_wrapper.py` — `DeepTranslatorWrapper`

The deep-translator backend (construction of `GoogleTranslator(source, target)`
plus its `.translate(stripped_text)` call — both inside the same `try`) is a
parameter `backend : String → String → String → Except PyExc String` taking
the source code, the target code and the stripped text. -/

/-- `DeepTranslatorWrapper.SUPPORTED_LANGUAGES`, in the literal order of the
Python set display (Python set iteration order is unspecified; only
membership matters below). -/
def DeepTranslatorWrapper.SUPPORTED_LANGUAGES : List String :=
  ["en", "es", "fr", "de", "it", "pt", "nl", "pl", "ru", "ja",
   "ko", "zh-CN", "zh-TW", "ar", "hi", "tr", "vi", "th", "sv",
   "da", "fi", "no", "cs", "el", "he", "id", "ms", "ro", "uk",
   "auto"]

/-- `DeepTranslatorWrapper.translate`.  Mirrors the Python validation order:
text None / non-str / blank, then `not source_lang or not isinstance(source_lang, str)`,
then the same for `target_lang`, then the backend call with the error-message
keyword re-wrap. -/
def DeepTranslatorWrapper.translate
    (backend : String → String → String → Except PyExc String)
    (text source_lang target_lang : PyVal) : Except PyExc String :=
  match text with
  | .none => .error (pyRaise .valueError "Text cannot be None")
  | .str s =>
    let stripped := pyStrip s
    if stripped = "" then
      .error (pyRaise .valueError "Text cannot be empty or contain only whitespace")
    else if ¬ (source_lang.truthy ∧ source_lang.isStr) then
      .error (pyRaise .valueError "Source language code must be a non-empty string")
    else if ¬ (target_lang.truthy ∧ target_lang.isStr) then
      .error (pyRaise .valueError "Target language code must be a non-empty string")
    else
      let src := source_lang.asStr
      let tgt := target_lang.asStr
      match backend src tgt stripped with
      | .ok result => .ok result
      | .error e =>
        let error_msg := pyLower e.main.msg
        if pyContains error_msg "language" ∨ pyContains error_msg "lang" then
          .error (pyRaiseFrom .valueError
            ("Invalid language code. Source: " ++ src ++ ", Target: " ++ tgt ++
             ". Error: " ++ e.main.msg) e)
        else
          .error e
  | v => .error (pyRaise .valueError ("Text must be a string, got " ++ v.typeName))

/-- `DeepTranslatorWrapper.supports_language`:
`if not lang_code or not isinstance(lang_code, str): return False` followed by
`lang_code.lower() in SUPPORTED_LANGUAGES`. -/
def DeepTranslatorWrapper.supports_language (lang_code : PyVal) : Bool :=
  if ¬ (lang_code.truthy ∧ lang_code.isStr) then false
  else DeepTranslatorWrapper.SUPPORTED_LANGUAGES.contains (pyLower lang_code.asStr)


/-!  ## `src/translators/manager.py` — `TranslationManager`

The manager's two collaborators (its `self.detector.detect` and
`self.translator.translate` bound methods) are parameters, matching the
constructor's dependency injection; the concrete composition instantiates
them with `LangDetectDetector.detect oracle` and
`DeepTranslatorWrapper.translate backend`. -/

/-- `TranslationManager.auto_translate`.  Note: the detection `try` catches
only `ValueError`; the translation `try` catches every `Exception`; the
translation-failure message interpolates the *unstripped* `target_lang`. -/
def TranslationManager.auto_translate
    (detector : PyVal → Except PyExc String)
    (translator : PyVal → PyVal → PyVal → Except PyExc String)
    (text target_lang : PyVal) : Except PyExc String :=
  match text with
  | .none => .error (pyRaise .valueError "Text cannot be None")
  | .str s =>
    let stripped_text := pyStrip s
    if stripped_text = "" then
      .error (pyRaise .valueError "Text cannot be empty or contain only whitespace")
    else
      match target_lang with
      | .none => .error (pyRaise .valueError "Target language cannot be None")
      | .str tgt =>
        if tgt = "" ∨ pyStrip tgt = "" then
          .error (pyRaise .valueError "Target language cannot be empty")
        else
          match detector (.str stripped_text) with
          | .error e =>
            if e.main.cls = .valueError then
              .error (pyRaiseFrom .valueError
                ("Failed to detect source language: " ++ e.main.msg) e)
            else
              .error e
          | .ok source_lang =>
            match translator (.str stripped_text) (.str source_lang)
                (.str (pyStrip tgt)) with
            | .ok translated_text => .ok translated_text
            | .error e =>
              .error (pyRaiseFrom .valueError
                ("Failed to translate from " ++ source_lang ++ " to " ++ tgt ++
                 ": " ++ e.main.msg) e)
      | v => .error (pyRaise .valueError
          ("Target language must be a string, got " ++ v.typeName))
  | v => .error (pyRaise .valueError ("Text must be a string, got " ++ v.typeName))

/-- One iteration of the line loop in
`TranslationManager.auto_translate_multilingual`: blank lines are kept, a
line already in the (stripped) target language is kept, otherwise the
stripped line is translated; the `try`/`except Exception` swallows any
detection or translation failure, keeping the original line. -/
def TranslationManager.processLine
    (detector : PyVal → Except PyExc String)
    (translator : PyVal → PyVal → PyVal → Except PyExc String)
    (tgt : String) (line : String) : String :=
  if pyStrip line = "" then line
  else
    match detector (.str (pyStrip line)) with
    | .error _ => line
    | .ok source_lang =>
      if source_lang = tgt then line
      else
        match translator (.str (pyStrip line)) (.str source_lang) (.str tgt) with
        | .ok translated_line => translated_line
        | .error _ => line

/-- `TranslationManager.auto_translate_multilingual`: validate, split into
lines, process each line best-effort, and join with `'\n'`. -/
def TranslationManager.auto_translate_multilingual
    (detector : PyVal → Except PyExc String)
    (translator : PyVal → PyVal → PyVal → Except PyExc String)
    (text target_lang : PyVal) : Except PyExc String :=
  match text with
  | .none => .error (pyRaise .valueError "Text cannot be None")
  | .str s =>
    if pyStrip s = "" then
      .error (pyRaise .valueError "Text cannot be empty or contain only whitespace")
    else
      match target_lang with
      | .str tgt =>
        if pyStrip tgt = "" then
          .error (pyRaise .valueError "Target language must be a non-empty string")
        else
          .ok (String.intercalate "\n"
            ((pySplitlines s).map
              (TranslationManager.processLine detector translator (pyStrip tgt))))
      | _ => .error (pyRaise .valueError "Target language must be a non-empty string")
  | v => .error (pyRaise .valueError ("Text must be a string, got " ++ v.typeName))


/-!  ## `src/extractors/registry.py` — `TextExtractorRegistry`

`self._extractors` is a Python `dict`, which preserves insertion order and
keeps an existing key's position when its value is overwritten; it is
modelled as an association list.  An extractor class is modelled by the
result of instantiating it (`Except PyExc β` for an abstract instance type
`β`): `create_extractor`'s `try`/`except ValueError` only prints a hint and
then re-raises the same exception, so the returned value / raised exception
is exactly the class's instantiation result. -/

/-- `TextExtractorRegistry.register`: `self._extractors[name] = extractor_class`
on an insertion-ordered dict — overwrite in place if present, else append. -/
def TextExtractorRegistry.register {α : Type}
    (reg : List (String × α)) (name : String) (extractor_class : α) :
    List (String × α) :=
  if reg.any (fun p => p.1 = name) then
    reg.map (fun p => if p.1 = name then (name, extractor_class) else p)
  else
    reg ++ [(name, extractor_class)]

/-- `TextExtractorRegistry.get_available_extractors`:
`list(self._extractors.keys())`. -/
def TextExtractorRegistry.get_available_extractors {α : Type}
    (reg : List (String × α)) : List String :=
  reg.map Prod.fst

/-- Dict key lookup `self._extractors[name]` / `name in self._extractors`. -/
def TextExtractorRegistry.lookup {α : Type}
    (reg : List (String × α)) (name : String) : Option α :=
  (reg.find? (fun p => p.1 = name)).map Prod.snd

/-- `TextExtractorRegistry.create_extractor`. -/
def TextExtractorRegistry.create_extractor {β : Type}
    (reg : List (String × Except PyExc β)) (name : String) : Except PyExc β :=
  match TextExtractorRegistry.lookup reg name with
  | none => .error (pyRaise .valueError ("Unknown extractor: " ++ name))
  | some inst => inst

/-- Folding a whole startup registration sequence over the empty registry. -/
def TextExtractorRegistry.ofCalls {α : Type}
    (calls : List (String × α)) : List (String × α) :=
  calls.foldl (fun reg c => TextExtractorRegistry.register reg c.1 c.2) []

/-- Helper for `firstRegistrationOrder`: emit each name not already seen. -/
def firstRegOrderAux (seen : List String) : List String → List String
  | [] => []
  | n :: rest =>
    if seen.contains n then firstRegOrderAux seen rest
    else n :: firstRegOrderAux (seen ++ [n]) rest

/-- The names of a call sequence in order of first occurrence, later
duplicates dropped — the order the spec calls "the order of each name's
first registration". -/
def firstRegistrationOrder (names : List String) : List String :=
  firstRegOrderAux [] names


/-!  ## Path handling shared by the two extractors

`extract_text(input_data)` converts its argument to a `pathlib.Path`; paths
are modelled as strings (with `/` as separator, as on POSIX).  The
filesystem is a parameter `fs : String → Bool` giving `Path.exists`. -/

/-- `pathlib.PurePath.name`: the final path component (the characters after
the last `/`). -/
def pathName (p : String) : String :=
  String.mk ((p.data.reverse.takeWhile (fun c => ¬ c = '/')).reverse)

/-- `pathlib.PurePath.suffix`: the final component's extension including the
leading dot, empty when the last dot is absent, leading (a dotfile) or
trailing. -/
def pathSuffix (p : String) : String :=
  let name := (pathName p).data
  let afterDotRev := name.reverse.takeWhile (fun c => ¬ c = '.')
  if afterDotRev.length = name.length then ""   -- no dot at all
  else if afterDotRev.length = 0 then ""        -- trailing dot
  else if afterDotRev.length = name.length - 1 then ""  -- leading dot only
  else String.mk ('.' :: afterDotRev.reverse)


/-- Python `str.lstrip('.')`: drop every leading dot. -/
def pyLstripDot (s : String) : String :=
  String.mk (s.data.dropWhile (fun c => c = '.'))

/-- `file_path.suffix.lower().lstrip('.')` as computed in both
`extract_text` implementations. -/
def fileExtOf (p : String) : String := pyLstripDot (pyLower (pathSuffix p))


/-!  ### Concrete collaborator instances used by witnesses -/

/-- A detection model that classifies every line as English. -/
def alwaysEnglishDetector : PyVal → Except PyExc String := fun _ => .ok "en"

/-- A langdetect oracle that always fails with `LangDetectException`
(the "No features in text." failure of the real library). -/
def failingOracle : String → Except PyExc String :=
  fun _ => .error (pyRaise .langDetectException "No features in text.")

/-- A langdetect oracle that always answers French. -/
def frenchOracle : String → Except PyExc String := fun _ => .ok "fr"

/-- A translation backend that always produces `"hola"`. -/
def holaBackend : String → String → String → Except PyExc String :=
  fun _ _ _ => .ok "hola"

/-- A translation backend that always fails with a generic network error. -/
def failingBackend : String → String → String → Except PyExc String :=
  fun _ _ _ => .error (pyRaise (.genericExc "ConnectionError") "connection reset")

/-- A manager-level translator collaborator that always produces `"hola"`. -/
def holaTranslator : PyVal → PyVal → PyVal → Except PyExc String :=
  fun _ _ _ => .ok "hola"

/-!  ## `src/extractors/tesseract_extractor.py` — `TesseractExtractor`

The private helpers `_extract_from_pdf` and `_extract_from_image` delegate
their whole work to external libraries (pdf2image, PIL, pytesseract) inside
a `try` that re-wraps any failure; they are parameters of `extract_text`. -/

/-- `TesseractExtractor.SUPPORTED_FORMATS` in literal order (a Python set;
only membership matters). -/
def TesseractExtractor.SUPPORTED_FORMATS : List String := ["pdf", "png", "jpg", "jpeg"]

/-- `TesseractExtractor.supports_format`. -/
def TesseractExtractor.supports_format (file_format : PyVal) : Bool :=
  if ¬ (file_format.truthy ∧ file_format.isStr) then false
  else TesseractExtractor.SUPPORTED_FORMATS.contains (pyLower file_format.asStr)

/-- `TesseractExtractor.extract_text`: existence check, then format check on
`suffix.lower().lstrip('.')`, then delegation by extension.  The unsupported
format message joins `SUPPORTED_FORMATS` in the modelled (literal) order. -/
def TesseractExtractor.extract_text (fs : String → Bool)
    (extract_from_pdf extract_from_image : String → Except PyExc String)
    (path : String) : Except PyExc String :=
  if ¬ fs path then
    .error (pyRaise .fileNotFoundError ("File not found: " ++ path))
  else
    let file_ext := fileExtOf path
    if ¬ TesseractExtractor.supports_format (.str file_ext) then
      .error (pyRaise .valueError
        ("Unsupported file format: " ++ file_ext ++ ". Supported formats: " ++
         String.intercalate ", " TesseractExtractor.SUPPORTED_FORMATS))
    else if file_ext = "pdf" then
      extract_from_pdf path
    else
      extract_from_image path

/-!  ## `src/extractors/azure_ocr_extractor.py` — `AzureOCRExtractor`

`__init__` resolves credentials as `api_key or os.environ.get(KEY_VAR)` (and
likewise for the endpoint) after `load_dotenv()`; the environment *after*
`load_dotenv` is the parameter `env : String → Option String`
(`os.environ.get`: `none` when the variable is unset).  Successful
construction is modelled by the resolved `(api_key, endpoint)` pair — client
creation is an external call that happens only after validation, and no
input file is touched during construction. -/

/-- Python `a or b`. -/
def pyOr (a b : PyVal) : PyVal := if a.truthy then a else b

/-- `os.environ.get(var)` as a `PyVal`. -/
def envGet (env : String → Option String) (var : String) : PyVal :=
  match env var with
  | some s => .str s
  | none => .none

/-- The message of the `ValueError` raised by `AzureOCRExtractor.__init__`
when credentials are missing. -/
def AzureOCRExtractor.missingCredentialsMsg : String :=
  "Azure credentials not provided. Either pass api_key and endpoint " ++
  "to constructor, or set AZURE_DOCUMENT_INTELLIGENCE_KEY."

/-- `AzureOCRExtractor.__init__` (credential resolution and validation). -/
def AzureOCRExtractor.init (env : String → Option String)
    (api_key endpoint : PyVal) : Except PyExc (String × String) :=
  if ¬ (pyOr api_key (envGet env "AZURE_DOCUMENT_INTELLIGENCE_KEY")).truthy
    ∨ ¬ (pyOr endpoint (envGet env "AZURE_DOCUMENT_INTELLIGENCE_ENDPOINT")).truthy
  then
    .error (pyRaise .valueError AzureOCRExtractor.missingCredentialsMsg)
  else
    .ok ((pyOr api_key (envGet env "AZURE_DOCUMENT_INTELLIGENCE_KEY")).asStr,
      (pyOr endpoint (envGet env "AZURE_DOCUMENT_INTELLIGENCE_ENDPOINT")).asStr)

/-- `AzureOCRExtractor`'s `self.SUPPORTED_FORMATS` in literal order. -/
def AzureOCRExtractor.SUPPORTED_FORMATS : List String :=
  ["pdf", "png", "jpg", "jpeg", "bmp", "tiff", "tif"]

/-- `AzureOCRExtractor.supports_format`. -/
def AzureOCRExtractor.supports_format (file_format : PyVal) : Bool :=
  if ¬ (file_format.truthy ∧ file_format.isStr) then false
  else AzureOCRExtractor.SUPPORTED_FORMATS.contains (pyLower file_format.asStr)

/-- `AzureOCRExtractor.extract_text`: the same existence-then-format checks,
then delegation to `_extract_with_azure_document_intelligence` (external
cloud call, a parameter). -/
def AzureOCRExtractor.extract_text (fs : String → Bool)
    (extract_with_azure : String → Except PyExc String)
    (path : String) : Except PyExc String :=
  if ¬ fs path then
    .error (pyRaise .fileNotFoundError ("File not found: " ++ path))
  else
    let file_ext := fileExtOf path
    if ¬ AzureOCRExtractor.supports_format (.str file_ext) then
      .error (pyRaise .valueError
        ("Unsupported file format: " ++ file_ext ++ ". Supported formats: " ++
         String.intercalate ", " AzureOCRExtractor.SUPPORTED_FORMATS))
    else
      extract_with_azure path

/-!  # Supporting lemmas -/

/-- The entry-update function used by `register` when the name is present. -/
def registryUpdate {α : Type} (n : String) (c : α) (p : String × α) : String × α :=
  if p.1 = n then (n, c) else p

/-- `register` (present case) maps `registryUpdate` over the entries. -/
theorem register_of_any {α : Type} (reg : List (String × α)) (n : String) (c : α)
    (h : reg.any (fun p => p.1 = n)) :
    TextExtractorRegistry.register reg n c = reg.map (registryUpdate n c) := by
  unfold TextExtractorRegistry.register
  rw [if_pos h]
  rfl

/-- Updating entries does not change the key sequence. -/
theorem keys_map_registryUpdate {α : Type} (reg : List (String × α)) (n : String)
    (c : α) :
    (reg.map (registryUpdate n c)).map Prod.fst = reg.map Prod.fst := by
  rw [List.map_map]
  apply List.map_congr_left
  intro p _
  by_cases h : p.1 = n <;> simp [registryUpdate, h, Function.comp]

/-- The keys of `register` are unchanged when the name is present, else get
the new name appended. -/
theorem register_keys {α : Type} (reg : List (String × α)) (n : String) (c : α) :
    TextExtractorRegistry.get_available_extractors
        (TextExtractorRegistry.register reg n c) =
      if reg.any (fun p => p.1 = n) then
        TextExtractorRegistry.get_available_extractors reg
      else
        TextExtractorRegistry.get_available_extractors reg ++ [n] := by
  by_cases h : reg.any (fun p => p.1 = n)
  · rw [if_pos h, register_of_any reg n c h]
    exact keys_map_registryUpdate reg n c
  · unfold TextExtractorRegistry.register TextExtractorRegistry.get_available_extractors
    rw [if_neg h, if_neg h, List.map_append]
    rfl

/-- `any` over the pairs coincides with `contains` over the keys. -/
theorem any_eq_keys_contains {α : Type} (reg : List (String × α)) (n : String) :
    reg.any (fun p => p.1 = n) =
      (TextExtractorRegistry.get_available_extractors reg).contains n := by
  unfold TextExtractorRegistry.get_available_extractors
  induction reg with
  | nil => rfl
  | cons hd tl ih =>
    simp only [List.any_cons, List.map_cons, List.contains_cons, ih]
    congr 1
    by_cases h : hd.1 = n
    · simp [h]
    · have h2 : ¬ n = hd.1 := fun hc => h hc.symm
      simp [h, h2]

/-- Lookup after `register`: the registered name maps to the new class, every
other name is unaffected. -/
theorem register_lookup {α : Type} (reg : List (String × α)) (n : String) (c : α)
    (m : String) :
    TextExtractorRegistry.lookup (TextExtractorRegistry.register reg n c) m =
      if m = n then
        (if reg.any (fun p => p.1 = n) then some c else
          (TextExtractorRegistry.lookup reg n).getD c |> some)
      else TextExtractorRegistry.lookup reg m := by
  by_cases hAny : reg.any (fun p => p.1 = n)
  · rw [register_of_any reg n c hAny]
    unfold TextExtractorRegistry.lookup
    rw [List.find?_map]
    by_cases hm : m = n
    · subst hm
      have hpred : ((fun p : String × α => decide (p.1 = m)) ∘ registryUpdate m c) =
          fun p : String × α => decide (p.1 = m) := by
        funext p
        by_cases h : p.1 = m <;> simp [registryUpdate, h, Function.comp]
      rw [hpred]
      rcases hfind : reg.find? (fun p : String × α => decide (p.1 = m)) with _ | a
      · rw [List.find?_eq_none] at hfind
        rcases List.any_eq_true.mp hAny with ⟨a, ha, hka⟩
        exact absurd hka (by simpa using hfind a ha)
      · have hka : a.1 = m := by
          have := (List.find?_eq_some.mp hfind).1
          simpa using this
        simp [hAny, registryUpdate, hka]
    · have hpred : ((fun p : String × α => decide (p.1 = m)) ∘ registryUpdate n c) =
          fun p : String × α => decide (p.1 = m) := by
        funext p
        by_cases h : p.1 = n
        · simp [registryUpdate, h, Function.comp, fun hc : n = m => hm hc.symm]
        · simp [registryUpdate, h, Function.comp]
      rw [hpred]
      rcases hfind : reg.find? (fun p : String × α => decide (p.1 = m)) with _ | a
      · simp [hm]
      · have hka : a.1 = m := by
          have := (List.find?_eq_some.mp hfind).1
          simpa using this
        have hkan : ¬ a.1 = n := by rw [hka]; exact hm
        simp [hm, registryUpdate, hkan]
  · unfold TextExtractorRegistry.register TextExtractorRegistry.lookup
    rw [if_neg hAny, List.find?_append]
    by_cases hm : m = n
    · subst hm
      have hnone : reg.find? (fun p : String × α => decide (p.1 = m)) = none := by
        rw [List.find?_eq_none]
        intro a ha hpa
        exact hAny (List.any_eq_true.mpr ⟨a, ha, hpa⟩)
      rw [hnone]
      simp [hAny, List.find?, hnone]
    · rcases hfind : reg.find? (fun p : String × α => decide (p.1 = m)) with _ | a
      · have hnm : ¬ n = m := fun hc => hm hc.symm
        simp [hm, List.find?, hnm]
      · simp [hm, hfind]

/-- Lookup after `register`, simplified: the registered name now maps to the
new class, all others are untouched. -/
theorem register_lookup_simple {α : Type} (reg : List (String × α)) (n : String)
    (c : α) (m : String) :
    TextExtractorRegistry.lookup (TextExtractorRegistry.register reg n c) m =
      if m = n then some c else TextExtractorRegistry.lookup reg m := by
  rw [register_lookup]
  by_cases hm : m = n
  · subst hm
    by_cases hAny : reg.any (fun p => p.1 = m)
    · simp [hAny]
    · have hnone : TextExtractorRegistry.lookup reg m = none := by
        unfold TextExtractorRegistry.lookup
        rw [List.find?_eq_none.mpr]
        · rfl
        · intro a ha hpa
          exact hAny (List.any_eq_true.mpr ⟨a, ha, hpa⟩)
      simp [hAny, hnone]
  · simp [hm]

/-- Folding registrations from any starting registry: the key sequence grows
by the not-yet-seen names in first-occurrence order. -/
theorem ofCalls_keys_aux {α : Type} (calls : List (String × α)) :
    ∀ reg : List (String × α),
    TextExtractorRegistry.get_available_extractors
        (calls.foldl (fun r c => TextExtractorRegistry.register r c.1 c.2) reg) =
      TextExtractorRegistry.get_available_extractors reg ++
        firstRegOrderAux (TextExtractorRegistry.get_available_extractors reg)
          (calls.map Prod.fst) := by
  induction calls with
  | nil => intro reg; simp [firstRegOrderAux]
  | cons c cs ih =>
    intro reg
    rw [List.foldl_cons, ih (TextExtractorRegistry.register reg c.1 c.2),
      register_keys]
    have hstep : firstRegOrderAux (TextExtractorRegistry.get_available_extractors reg)
        ((c :: cs).map Prod.fst) =
        if (TextExtractorRegistry.get_available_extractors reg).contains c.1 then
          firstRegOrderAux (TextExtractorRegistry.get_available_extractors reg)
            (cs.map Prod.fst)
        else
          c.1 :: firstRegOrderAux
            (TextExtractorRegistry.get_available_extractors reg ++ [c.1])
            (cs.map Prod.fst) := by
      rw [List.map_cons]
      simp only [firstRegOrderAux]
    by_cases hAny : reg.any (fun p => p.1 = c.1)
    · rw [if_pos hAny]
      have hc : (TextExtractorRegistry.get_available_extractors reg).contains c.1 =
          true := by
        rw [← any_eq_keys_contains]; exact hAny
      rw [hstep, hc]
      simp
    · rw [if_neg hAny]
      have hc : (TextExtractorRegistry.get_available_extractors reg).contains c.1 =
          false := by
        rw [← any_eq_keys_contains]
        exact Bool.eq_false_iff.mpr hAny
      rw [hstep, hc]
      simp

/-- No element of `firstRegOrderAux seen l` is in `seen`. -/
theorem firstRegOrderAux_not_seen :
    ∀ (l seen : List String) (x : String), x ∈ firstRegOrderAux seen l →
      seen.contains x = false := by
  intro l
  induction l with
  | nil => intro seen x hx; simp [firstRegOrderAux] at hx
  | cons n rest ih =>
    intro seen x hx
    unfold firstRegOrderAux at hx
    by_cases hn : seen.contains n
    · rw [if_pos hn] at hx
      exact ih seen x hx
    · rw [if_neg hn] at hx
      rcases List.mem_cons.mp hx with h | h
      · subst h
        simpa using hn
      · have h2 := ih (seen ++ [n]) x h
        simp only [List.contains, List.elem_eq_mem, List.mem_append,
          decide_eq_false_iff_not] at h2 ⊢
        exact fun hmem => h2 (Or.inl hmem)

/-- `firstRegOrderAux` emits no duplicates. -/
theorem firstRegOrderAux_nodup :
    ∀ (l seen : List String), (firstRegOrderAux seen l).Nodup := by
  intro l
  induction l with
  | nil => intro seen; simp [firstRegOrderAux]
  | cons n rest ih =>
    intro seen
    unfold firstRegOrderAux
    by_cases hn : seen.contains n
    · rw [if_pos hn]; exact ih seen
    · rw [if_neg hn]
      refine List.nodup_cons.mpr ⟨?_, ih (seen ++ [n])⟩
      intro hmem
      have := firstRegOrderAux_not_seen rest (seen ++ [n]) n hmem
      simp at this

/-- Folding registrations from any starting registry: a name resolves to the
most recently registered class, falling back to the starting registry. -/
theorem ofCalls_lookup_aux {α : Type} (calls : List (String × α)) :
    ∀ (reg : List (String × α)) (name : String),
    TextExtractorRegistry.lookup
        (calls.foldl (fun r c => TextExtractorRegistry.register r c.1 c.2) reg)
        name =
      ((calls.reverse.find? (fun c => c.1 = name)).map Prod.snd).or
        (TextExtractorRegistry.lookup reg name) := by
  induction calls with
  | nil => intro reg name; rfl
  | cons c cs ih =>
    intro reg name
    rw [List.foldl_cons, ih (TextExtractorRegistry.register reg c.1 c.2) name,
      register_lookup_simple, List.reverse_cons, List.find?_append]
    rcases hfind : cs.reverse.find? (fun c => decide (c.1 = name)) with _ | a
    · rw [hfind]
      by_cases hc : c.1 = name
      · rw [List.find?_cons_of_pos _ (by simpa using hc)]
        have hname : name = c.1 := hc.symm
        simp [hname]
      · rw [List.find?_cons_of_neg _ (by simpa using hc)]
        have hname : ¬ name = c.1 := fun h => hc h.symm
        simp [hname]
    · rw [hfind]
      simp

/-!  # Claim theorems -/

/-- C7: for every sequence of `TextExtractorRegistry.register(name, implementation)`
calls, `get_available_extractors` returns the registered names in the order of
each name's first registration, with no duplicates; registering an
already-registered name silently replaces its implementation (the name
resolves to the most recently registered class) without adding a second menu
entry. -/
theorem claim_C7_registry_order {α : Type} (calls : List (String × α)) :
    TextExtractorRegistry.get_available_extractors
        (TextExtractorRegistry.ofCalls calls) =
      firstRegistrationOrder (calls.map Prod.fst)
  ∧ (TextExtractorRegistry.get_available_extractors
        (TextExtractorRegistry.ofCalls calls)).Nodup
  ∧ ∀ name, TextExtractorRegistry.lookup (TextExtractorRegistry.ofCalls calls)
        name =
      (calls.reverse.find? (fun c => c.1 = name)).map Prod.snd := by
  have hkeys : TextExtractorRegistry.get_available_extractors
      (TextExtractorRegistry.ofCalls calls) =
      firstRegistrationOrder (calls.map Prod.fst) := by
    unfold TextExtractorRegistry.ofCalls firstRegistrationOrder
    rw [ofCalls_keys_aux calls []]
    rfl
  refine ⟨hkeys, ?_, ?_⟩
  · rw [hkeys]
    exact firstRegOrderAux_nodup _ []
  · intro name
    unfold TextExtractorRegistry.ofCalls
    rw [ofCalls_lookup_aux calls [] name]
    simp [TextExtractorRegistry.lookup]

/-- C8: `TextExtractorRegistry.create_extractor(name)` fails with
`UnknownExtractor` (a `ValueError` whose message is
`"Unknown extractor: <name>"`) for every name that was never registered, in
particular `"nonexistent"`; for a registered name it returns exactly the
registered class's instantiation outcome — in particular an
`InitializationError` raised by that constructor propagates unchanged (the
registry prints a hint and re-raises the same exception). -/
theorem claim_C8_create_extractor {β : Type}
    (reg : List (String × Except PyExc β)) (name : String) :
    (TextExtractorRegistry.lookup reg name = none →
      TextExtractorRegistry.create_extractor reg name =
        .error (pyRaise .valueError ("Unknown extractor: " ++ name)))
  ∧ (∀ inst, TextExtractorRegistry.lookup reg name = some inst →
      TextExtractorRegistry.create_extractor reg name = inst) := by
  constructor
  · intro h
    unfold TextExtractorRegistry.create_extractor
    rw [h]
  · intro inst h
    unfold TextExtractorRegistry.create_extractor
    rw [h]

/-- Witness for C8: on a registry holding only the Tesseract entry,
`create_extractor "nonexistent"` is the `UnknownExtractor` failure, and
`create_extractor` on a registered name whose constructor raised
`MissingCredentials` propagates exactly that error. -/
theorem claim_C8_witness :
    TextExtractorRegistry.create_extractor
        [("Tesseract OCR", (.ok 0 : Except PyExc Nat))] "nonexistent" =
      .error (pyRaise .valueError "Unknown extractor: nonexistent")
  ∧ TextExtractorRegistry.create_extractor
        [("Azure OCR", (.error (pyRaise .valueError
            AzureOCRExtractor.missingCredentialsMsg) : Except PyExc Nat))]
        "Azure OCR" =
      .error (pyRaise .valueError AzureOCRExtractor.missingCredentialsMsg) := by
  constructor
  · exact (claim_C8_create_extractor
      [("Tesseract OCR", (.ok 0 : Except PyExc Nat))] "nonexistent").1 (by rfl)
  · exact (claim_C8_create_extractor
      [("Azure OCR", (.error (pyRaise .valueError
        AzureOCRExtractor.missingCredentialsMsg) : Except PyExc Nat))]
      "Azure OCR").2 _ (by rfl)

/-- C5 (code bug): `DeepTranslatorWrapper.supports_language` is a total
membership test that returns true for most allow-list members and false for
None, non-string and unknown inputs — but `"zh-CN"` and `"zh-TW"`, although
listed in `SUPPORTED_LANGUAGES`, return false, because the method lowercases
its argument before testing membership in a set whose entries keep uppercase
region tags (no input can ever match them).  This contradicts the declared
allow-list, so the claim "returns true for every code in SUPPORTED_LANGUAGES,
including zh-CN and zh-TW" fails on the code. -/
theorem claim_C5_supports_language_bug :
    "zh-CN" ∈ DeepTranslatorWrapper.SUPPORTED_LANGUAGES
  ∧ "zh-TW" ∈ DeepTranslatorWrapper.SUPPORTED_LANGUAGES
  ∧ DeepTranslatorWrapper.supports_language (.str "zh-CN") = false
  ∧ DeepTranslatorWrapper.supports_language (.str "zh-TW") = false
  ∧ DeepTranslatorWrapper.supports_language (.str "auto") = true
  ∧ DeepTranslatorWrapper.supports_language (.str "en") = true
  ∧ DeepTranslatorWrapper.supports_language (.str "ES") = true
  ∧ DeepTranslatorWrapper.supports_language .none = false
  ∧ DeepTranslatorWrapper.supports_language (.intVal 3) = false
  ∧ DeepTranslatorWrapper.supports_language (.str "") = false
  ∧ DeepTranslatorWrapper.supports_language (.str "xx") = false
  ∧ DeepTranslatorWrapper.supports_language (.str "invalid_code") = false := by
  decide

/-- C6: `AzureOCRExtractor.__init__` credential resolution: a non-empty
constructor argument takes precedence over the corresponding environment
variable (the result is independent of that variable and a success carries
the argument's value), and construction fails — with the fixed
missing-credentials `ValueError`, before any input file is read — exactly
when the resolved key or the resolved endpoint is absent (falsy). -/
theorem claim_C6_azure_credentials (env : String → Option String)
    (api_key endpoint : PyVal) :
    (∀ s : String, ¬ s = "" → ∀ env' : String → Option String,
      env' "AZURE_DOCUMENT_INTELLIGENCE_ENDPOINT" =
        env "AZURE_DOCUMENT_INTELLIGENCE_ENDPOINT" →
      AzureOCRExtractor.init env' (.str s) endpoint =
        AzureOCRExtractor.init env (.str s) endpoint)
  ∧ (∀ s : String, ¬ s = "" → ∀ r,
      AzureOCRExtractor.init env (.str s) endpoint = .ok r → r.1 = s)
  ∧ (∀ s : String, ¬ s = "" → ∀ env' : String → Option String,
      env' "AZURE_DOCUMENT_INTELLIGENCE_KEY" =
        env "AZURE_DOCUMENT_INTELLIGENCE_KEY" →
      AzureOCRExtractor.init env' api_key (.str s) =
        AzureOCRExtractor.init env api_key (.str s))
  ∧ (∀ s : String, ¬ s = "" → ∀ r,
      AzureOCRExtractor.init env api_key (.str s) = .ok r → r.2 = s)
  ∧ ((∃ e, AzureOCRExtractor.init env api_key endpoint = .error e) ↔
      (¬ (pyOr api_key (envGet env "AZURE_DOCUMENT_INTELLIGENCE_KEY")).truthy
        ∨ ¬ (pyOr endpoint
            (envGet env "AZURE_DOCUMENT_INTELLIGENCE_ENDPOINT")).truthy))
  ∧ (∀ e, AzureOCRExtractor.init env api_key endpoint = .error e →
      e = pyRaise .valueError AzureOCRExtractor.missingCredentialsMsg) := by
  refine ⟨?_, ?_, ?_, ?_, ?_, ?_⟩
  · intro s hs env' henv
    unfold AzureOCRExtractor.init
    rw [show pyOr (PyVal.str s) (envGet env' "AZURE_DOCUMENT_INTELLIGENCE_KEY") =
          PyVal.str s from by simp [pyOr, PyVal.truthy, hs],
      show pyOr (PyVal.str s) (envGet env "AZURE_DOCUMENT_INTELLIGENCE_KEY") =
          PyVal.str s from by simp [pyOr, PyVal.truthy, hs],
      show envGet env' "AZURE_DOCUMENT_INTELLIGENCE_ENDPOINT" =
          envGet env "AZURE_DOCUMENT_INTELLIGENCE_ENDPOINT" from by
        unfold envGet; rw [henv]]
  · intro s hs r hr
    unfold AzureOCRExtractor.init at hr
    rw [show pyOr (PyVal.str s) (envGet env "AZURE_DOCUMENT_INTELLIGENCE_KEY") =
          PyVal.str s from by simp [pyOr, PyVal.truthy, hs]] at hr
    split at hr
    · exact absurd hr (by simp)
    · have h2 := Except.ok.inj hr
      rw [← h2]
      rfl
  · intro s hs env' henv
    unfold AzureOCRExtractor.init
    rw [show pyOr (PyVal.str s)
            (envGet env' "AZURE_DOCUMENT_INTELLIGENCE_ENDPOINT") =
          PyVal.str s from by simp [pyOr, PyVal.truthy, hs],
      show pyOr (PyVal.str s) (envGet env "AZURE_DOCUMENT_INTELLIGENCE_ENDPOINT") =
          PyVal.str s from by simp [pyOr, PyVal.truthy, hs],
      show envGet env' "AZURE_DOCUMENT_INTELLIGENCE_KEY" =
          envGet env "AZURE_DOCUMENT_INTELLIGENCE_KEY" from by
        unfold envGet; rw [henv]]
  · intro s hs r hr
    unfold AzureOCRExtractor.init at hr
    rw [show pyOr (PyVal.str s) (envGet env "AZURE_DOCUMENT_INTELLIGENCE_ENDPOINT") =
          PyVal.str s from by simp [pyOr, PyVal.truthy, hs]] at hr
    split at hr
    · exact absurd hr (by simp)
    · have h2 := Except.ok.inj hr
      rw [← h2]
      rfl
  · unfold AzureOCRExtractor.init
    by_cases hcond : ¬ (pyOr api_key
          (envGet env "AZURE_DOCUMENT_INTELLIGENCE_KEY")).truthy
      ∨ ¬ (pyOr endpoint
          (envGet env "AZURE_DOCUMENT_INTELLIGENCE_ENDPOINT")).truthy
    · rw [if_pos hcond]
      exact ⟨fun _ => by simpa using hcond, fun _ => ⟨_, rfl⟩⟩
    · rw [if_neg hcond]
      constructor
      · rintro ⟨e, he⟩
        exact absurd he (by simp)
      · intro h
        exact absurd (by simpa using h) hcond
  · unfold AzureOCRExtractor.init
    by_cases hcond : ¬ (pyOr api_key
          (envGet env "AZURE_DOCUMENT_INTELLIGENCE_KEY")).truthy
      ∨ ¬ (pyOr endpoint
          (envGet env "AZURE_DOCUMENT_INTELLIGENCE_ENDPOINT")).truthy
    · rw [if_pos hcond]
      intro e he
      exact ((Except.error.injEq _ _).mp he).symm
    · rw [if_neg hcond]
      intro e he
      exact absurd he (by simp)

/-- Witness for C6: with nothing in the environment and no constructor
arguments, construction fails; and with a non-empty constructor key, setting
the key environment variable does not change the outcome. -/
theorem claim_C6_witness :
    (∃ e, AzureOCRExtractor.init (fun _ => Option.none) PyVal.none PyVal.none =
      .error e)
  ∧ AzureOCRExtractor.init
      (fun v => if v = "AZURE_DOCUMENT_INTELLIGENCE_KEY" then some "env-key"
        else Option.none)
      (.str "ctor-key") (.str "ep") =
    AzureOCRExtractor.init (fun _ => Option.none) (.str "ctor-key") (.str "ep") := by
  constructor
  · exact (claim_C6_azure_credentials (fun _ => Option.none) PyVal.none
      PyVal.none).2.2.2.2.1.mpr (Or.inl (by decide))
  · exact (claim_C6_azure_credentials (fun _ => Option.none) PyVal.none
      (.str "ep")).1 "ctor-key" (by decide) _ (by decide)

/-- C9: for both extractor implementations, `extract_text(path)` fails with
`NotFound` (`FileNotFoundError`) for every path that does not exist —
regardless of its extension, since the existence check precedes the format
check — and fails with `UnsupportedFormat` (a `ValueError` naming the
extension) for every existing path whose lower-cased, dot-stripped extension
is outside that extractor's supported set. -/
theorem claim_C9_extract_text_checks (fs : String → Bool)
    (pdfB imgB azureB : String → Except PyExc String) (path : String) :
    (fs path = false →
      TesseractExtractor.extract_text fs pdfB imgB path =
        .error (pyRaise .fileNotFoundError ("File not found: " ++ path))
      ∧ AzureOCRExtractor.extract_text fs azureB path =
        .error (pyRaise .fileNotFoundError ("File not found: " ++ path)))
  ∧ (fs path = true →
      TesseractExtractor.supports_format (.str (fileExtOf path)) = false →
      TesseractExtractor.extract_text fs pdfB imgB path =
        .error (pyRaise .valueError
          ("Unsupported file format: " ++ fileExtOf path ++
           ". Supported formats: " ++
           String.intercalate ", " TesseractExtractor.SUPPORTED_FORMATS)))
  ∧ (fs path = true →
      AzureOCRExtractor.supports_format (.str (fileExtOf path)) = false →
      AzureOCRExtractor.extract_text fs azureB path =
        .error (pyRaise .valueError
          ("Unsupported file format: " ++ fileExtOf path ++
           ". Supported formats: " ++
           String.intercalate ", " AzureOCRExtractor.SUPPORTED_FORMATS))) := by
  refine ⟨?_, ?_, ?_⟩
  · intro h
    constructor
    · unfold TesseractExtractor.extract_text
      rw [if_pos (by simp [h])]
    · unfold AzureOCRExtractor.extract_text
      rw [if_pos (by simp [h])]
  · intro h hfmt
    unfold TesseractExtractor.extract_text
    rw [if_neg (by simp [h]), if_pos (by simp [hfmt])]
  · intro h hfmt
    unfold AzureOCRExtractor.extract_text
    rw [if_neg (by simp [h]), if_pos (by simp [hfmt])]

/-- Witness for C9: on an empty filesystem, `doc.docx` gives `NotFound` for
both extractors (even though its extension is also unsupported); on a
filesystem where it exists, it gives `UnsupportedFormat` for both. -/
theorem claim_C9_witness :
    TesseractExtractor.extract_text (fun _ => false)
        (fun _ => .ok "") (fun _ => .ok "") "doc.docx" =
      .error (pyRaise .fileNotFoundError "File not found: doc.docx")
  ∧ AzureOCRExtractor.extract_text (fun _ => false) (fun _ => .ok "")
        "doc.docx" =
      .error (pyRaise .fileNotFoundError "File not found: doc.docx")
  ∧ TesseractExtractor.extract_text (fun _ => true)
        (fun _ => .ok "") (fun _ => .ok "") "doc.docx" =
      .error (pyRaise .valueError
        ("Unsupported file format: docx. Supported formats: " ++
         String.intercalate ", " TesseractExtractor.SUPPORTED_FORMATS))
  ∧ AzureOCRExtractor.extract_text (fun _ => true) (fun _ => .ok "")
        "doc.docx" =
      .error (pyRaise .valueError
        ("Unsupported file format: docx. Supported formats: " ++
         String.intercalate ", " AzureOCRExtractor.SUPPORTED_FORMATS)) := by
  have h1 := (claim_C9_extract_text_checks (fun _ => false)
    (fun _ => .ok "") (fun _ => .ok "") (fun _ => .ok "") "doc.docx").1 rfl
  have h2 := (claim_C9_extract_text_checks (fun _ => true)
    (fun _ => .ok "") (fun _ => .ok "") (fun _ => .ok "") "doc.docx").2.1
    rfl (by decide)
  have h3 := (claim_C9_extract_text_checks (fun _ => true)
    (fun _ => .ok "") (fun _ => .ok "") (fun _ => .ok "") "doc.docx").2.2
    rfl (by decide)
  refine ⟨h1.1, h1.2, ?_, ?_⟩
  · have hext : fileExtOf "doc.docx" = "docx" := by decide
    rw [hext] at h2
    exact h2
  · have hext : fileExtOf "doc.docx" = "docx" := by decide
    rw [hext] at h3
    exact h3

/-- C3: `LangDetectDetector.detect` fails with `InvalidInput` (a cause-less
`ValueError` with one of three fixed validation messages) for every input
that is None, not a string, or blank after trimming; and when the underlying
model cannot classify the text (a `LangDetectException`), it fails with
`DetectionFailed`: a `ValueError` whose message carries the model failure and
whose cause chain carries the `LangDetectException` — an error value distinct
from every `InvalidInput` error, so callers can tell the two kinds apart. -/
theorem claim_C3_detect_errors (oracle : String → Except PyExc String) :
    LangDetectDetector.detect oracle PyVal.none =
      .error (pyRaise .valueError "Text cannot be None")
  ∧ (∀ n : Int, LangDetectDetector.detect oracle (.intVal n) =
      .error (pyRaise .valueError "Text must be a string, got int"))
  ∧ (∀ s : String, pyStrip s = "" →
      LangDetectDetector.detect oracle (.str s) =
        .error (pyRaise .valueError
          "Text cannot be empty or contain only whitespace"))
  ∧ (∀ s e, ¬ pyStrip s = "" → oracle (pyStrip s) = .error e →
      e.main.cls = .langDetectException →
      LangDetectDetector.detect oracle (.str s) =
        .error (pyRaiseFrom .valueError
          ("Could not detect language: " ++ e.main.msg) e))
  ∧ (∀ e msg, (pyRaiseFrom .valueError
        ("Could not detect language: " ++ e.main.msg) e).causes ≠ []
      ∧ pyRaiseFrom .valueError ("Could not detect language: " ++ e.main.msg) e ≠
          pyRaise .valueError msg) := by
  refine ⟨rfl, fun n => rfl, ?_, ?_, ?_⟩
  · intro s hs
    simp only [LangDetectDetector.detect]
    rw [if_pos hs]
  · intro s e hs he hcls
    simp only [LangDetectDetector.detect]
    rw [if_neg hs, he]
    simp [hcls]
  · intro e msg
    constructor
    · simp [pyRaiseFrom]
    · intro h
      have h2 := congrArg PyExc.causes h
      simp [pyRaiseFrom, pyRaise] at h2

/-- Witness for C3: with an oracle that fails as the real library does on
featureless text, the blank input and the model failure produce the two
distinct error values. -/
theorem claim_C3_witness :
    LangDetectDetector.detect failingOracle (.str "  ") =
      .error (pyRaise .valueError "Text cannot be empty or contain only whitespace")
  ∧ LangDetectDetector.detect failingOracle (.str "zq") =
      .error (pyRaiseFrom .valueError "Could not detect language: No features in text."
        (pyRaise .langDetectException "No features in text."))
  ∧ pyRaiseFrom .valueError "Could not detect language: No features in text."
        (pyRaise .langDetectException "No features in text.") ≠
      pyRaise .valueError "Text cannot be empty or contain only whitespace" := by
  refine ⟨?_, ?_, ?_⟩
  · exact (claim_C3_detect_errors failingOracle).2.2.1 "  " (by decide)
  · exact (claim_C3_detect_errors failingOracle).2.2.2.1 "zq"
      (pyRaise .langDetectException "No features in text.") (by decide) rfl rfl
  · exact ((claim_C3_detect_errors failingOracle).2.2.2.2
      (pyRaise .langDetectException "No features in text.")
      "Text cannot be empty or contain only whitespace").2

/-- C4 counterexample: a whitespace-only source language code `" "` is NOT
rejected with `InvalidInput` before backend dispatch — it is truthy, so it
passes the `not source_lang` check and is handed to the backend, whose
result is returned.  The backend here records the source code it received,
showing the dispatch happened with the blank code. -/
theorem claim_C4_counterexample :
    DeepTranslatorWrapper.translate (fun source _ _ => .ok ("dispatched:" ++ source))
      (.str "hello") (.str " ") (.str "es") = .ok "dispatched: " := by
  rfl

/-- C4 (amended): `DeepTranslatorWrapper.translate` fails with `InvalidInput`
before any backend dispatch whenever the text is None, non-string, empty or
whitespace-only, or whenever a language code is None, an empty string, or
not a string; a whitespace-only language code passes validation.  The
validation outcome is independent of the backend (the last conjunct). -/
theorem claim_C4_translate_validation
    (backend : String → String → String → Except PyExc String)
    (source_lang target_lang : PyVal) :
    DeepTranslatorWrapper.translate backend PyVal.none source_lang target_lang =
      .error (pyRaise .valueError "Text cannot be None")
  ∧ (∀ n : Int, DeepTranslatorWrapper.translate backend (.intVal n)
        source_lang target_lang =
      .error (pyRaise .valueError "Text must be a string, got int"))
  ∧ (∀ s : String, pyStrip s = "" →
      DeepTranslatorWrapper.translate backend (.str s) source_lang target_lang =
        .error (pyRaise .valueError
          "Text cannot be empty or contain only whitespace"))
  ∧ (∀ s : String, ¬ pyStrip s = "" →
      ¬ (source_lang.truthy = true ∧ source_lang.isStr = true) →
      DeepTranslatorWrapper.translate backend (.str s) source_lang target_lang =
        .error (pyRaise .valueError
          "Source language code must be a non-empty string"))
  ∧ (∀ s : String, ¬ pyStrip s = "" →
      (source_lang.truthy = true ∧ source_lang.isStr = true) →
      ¬ (target_lang.truthy = true ∧ target_lang.isStr = true) →
      DeepTranslatorWrapper.translate backend (.str s) source_lang target_lang =
        .error (pyRaise .valueError
          "Target language code must be a non-empty string"))
  ∧ (∀ (backend₂ : String → String → String → Except PyExc String) (s : String),
      (pyStrip s = "" ∨ ¬ (source_lang.truthy = true ∧ source_lang.isStr = true)
        ∨ ¬ (target_lang.truthy = true ∧ target_lang.isStr = true)) →
      DeepTranslatorWrapper.translate backend (.str s) source_lang target_lang =
        DeepTranslatorWrapper.translate backend₂ (.str s) source_lang
          target_lang) := by
  refine ⟨rfl, fun n => rfl, ?_, ?_, ?_, ?_⟩
  · intro s hs
    simp only [DeepTranslatorWrapper.translate]
    rw [if_pos hs]
  · intro s hs hsrc
    simp only [DeepTranslatorWrapper.translate]
    rw [if_neg hs, if_pos hsrc]
  · intro s hs hsrc htgt
    simp only [DeepTranslatorWrapper.translate]
    rw [if_neg hs, if_neg (by simpa using hsrc), if_pos htgt]
  · intro backend₂ s h
    simp only [DeepTranslatorWrapper.translate]
    by_cases hstrip : pyStrip s = ""
    · rw [if_pos hstrip, if_pos hstrip]
    · rw [if_neg hstrip, if_neg hstrip]
      rcases h with h | h | h
      · exact absurd h hstrip
      · rw [if_pos h, if_pos h]
      · by_cases hsrc : source_lang.truthy = true ∧ source_lang.isStr = true
        · have hsrc2 : ¬¬ (source_lang.truthy = true ∧ source_lang.isStr = true) :=
            not_not_intro hsrc
          rw [if_neg hsrc2, if_neg hsrc2, if_pos h, if_pos h]
        · rw [if_pos hsrc, if_pos hsrc]

/-- Witness for C4's amended theorem: a blank text, a None source code and an
integer target code each fail with the corresponding `InvalidInput` error;
the blank-text outcome is the same under two different backends. -/
theorem claim_C4_witness :
    DeepTranslatorWrapper.translate holaBackend (.str " \t ")
        (.str "en") (.str "es") =
      .error (pyRaise .valueError "Text cannot be empty or contain only whitespace")
  ∧ DeepTranslatorWrapper.translate holaBackend (.str "hi")
        PyVal.none (.str "es") =
      .error (pyRaise .valueError "Source language code must be a non-empty string")
  ∧ DeepTranslatorWrapper.translate holaBackend (.str "hi")
        (.str "en") (.intVal 7) =
      .error (pyRaise .valueError "Target language code must be a non-empty string")
  ∧ DeepTranslatorWrapper.translate holaBackend (.str " \t ")
        (.str "en") (.str "es") =
      DeepTranslatorWrapper.translate failingBackend (.str " \t ")
        (.str "en") (.str "es") := by
  refine ⟨?_, ?_, ?_, ?_⟩
  · exact (claim_C4_translate_validation holaBackend (.str "en")
      (.str "es")).2.2.1 " \t " (by decide)
  · exact (claim_C4_translate_validation holaBackend PyVal.none
      (.str "es")).2.2.2.1 "hi" (by decide) (by decide)
  · exact (claim_C4_translate_validation holaBackend (.str "en")
      (.intVal 7)).2.2.2.2.1 "hi" (by decide) (by decide) (by decide)
  · exact (claim_C4_translate_validation holaBackend (.str "en")
      (.str "es")).2.2.2.2.2 failingBackend " \t " (Or.inl (by decide))

/-- If the langdetect model only ever raises `LangDetectException` (as the
real library does on classification failure), every error coming out of
`LangDetectDetector.detect` is a `ValueError` — so the manager's
`except ValueError` around detection catches all of them. -/
theorem detect_error_valueError (oracle : String → Except PyExc String)
    (horacle : ∀ s e, oracle s = .error e → e.main.cls = .langDetectException) :
    ∀ v e, LangDetectDetector.detect oracle v = .error e →
      e.main.cls = .valueError := by
  intro v e h
  match v with
  | PyVal.none =>
    rw [show LangDetectDetector.detect oracle PyVal.none =
      .error (pyRaise .valueError "Text cannot be None") from rfl] at h
    cases h
    rfl
  | PyVal.intVal n =>
    rw [show LangDetectDetector.detect oracle (.intVal n) =
      .error (pyRaise .valueError "Text must be a string, got int") from rfl] at h
    cases h
    rfl
  | PyVal.str s =>
    simp only [LangDetectDetector.detect] at h
    by_cases hs : pyStrip s = ""
    · rw [if_pos hs] at h
      cases h
      rfl
    · rw [if_neg hs] at h
      cases hdet : oracle (pyStrip s) with
      | ok code =>
        rw [hdet] at h
        cases h
      | error e2 =>
        rw [hdet] at h
        have hcls := horacle _ _ hdet
        simp [hcls] at h
        subst h
        rfl

/-- On valid inputs `auto_translate_multilingual` returns, without failing,
the newline-join of the per-line best-effort results. -/
theorem multilingual_ok (detector : PyVal → Except PyExc String)
    (translator : PyVal → PyVal → PyVal → Except PyExc String)
    (s t : String) (hs : ¬ pyStrip s = "") (ht : ¬ pyStrip t = "") :
    TranslationManager.auto_translate_multilingual detector translator
        (.str s) (.str t) =
      .ok (String.intercalate "\n" ((pySplitlines s).map
        (TranslationManager.processLine detector translator (pyStrip t)))) := by
  simp only [TranslationManager.auto_translate_multilingual]
  rw [if_neg hs, if_neg ht]

/-- C1 counterexample: `auto_translate(None, "es")` fails with the
`ValueError` message `"Text cannot be None"`, which does not mention
`"empty"` — so the claim that the `InvalidInput` failure for None (and
non-string) text has a message mentioning `"empty"` is false on the code. -/
theorem claim_C1_counterexample :
    TranslationManager.auto_translate (LangDetectDetector.detect frenchOracle)
        (DeepTranslatorWrapper.translate holaBackend) PyVal.none (.str "es") =
      .error (pyRaise .valueError "Text cannot be None")
  ∧ pyContains "Text cannot be None" "empty" = false := by
  exact ⟨rfl, by decide⟩

/-- C1 (amended): for every text and target language whose trims are
non-empty, `TranslationManager.auto_translate` composed of the langdetect
detector and the deep-translator wrapper returns exactly
`translator.translate(trimmed text, detector.detect(trimmed text), trimmed
target)` with no post-processing; if detection fails it re-raises a
`DetectionFailed` `ValueError` prefixed `"Failed to detect source language"`
wrapping the cause, and if translation fails it re-raises a
`TranslationFailed` `ValueError` naming the source and target codes and
wrapping the cause.  For None, non-string, empty or whitespace-only text it
fails with `InvalidInput`; the message mentions `"empty"` in the empty and
whitespace-only cases (in particular for the empty string with target
`"es"`), while the None and non-string messages do not. -/
theorem claim_C1_auto_translate
    (oracle : String → Except PyExc String)
    (backend : String → String → String → Except PyExc String)
    (horacle : ∀ s e, oracle s = .error e → e.main.cls = .langDetectException)
    (text target : String)
    (htext : ¬ pyStrip text = "") (htgt : ¬ pyStrip target = "") :
    (∀ src out,
      LangDetectDetector.detect oracle (.str (pyStrip text)) = .ok src →
      DeepTranslatorWrapper.translate backend (.str (pyStrip text)) (.str src)
          (.str (pyStrip target)) = .ok out →
      TranslationManager.auto_translate (LangDetectDetector.detect oracle)
          (DeepTranslatorWrapper.translate backend) (.str text) (.str target) =
        .ok out)
  ∧ (∀ e, LangDetectDetector.detect oracle (.str (pyStrip text)) = .error e →
      TranslationManager.auto_translate (LangDetectDetector.detect oracle)
          (DeepTranslatorWrapper.translate backend) (.str text) (.str target) =
        .error (pyRaiseFrom .valueError
          ("Failed to detect source language: " ++ e.main.msg) e))
  ∧ (∀ src e,
      LangDetectDetector.detect oracle (.str (pyStrip text)) = .ok src →
      DeepTranslatorWrapper.translate backend (.str (pyStrip text)) (.str src)
          (.str (pyStrip target)) = .error e →
      TranslationManager.auto_translate (LangDetectDetector.detect oracle)
          (DeepTranslatorWrapper.translate backend) (.str text) (.str target) =
        .error (pyRaiseFrom .valueError
          ("Failed to translate from " ++ src ++ " to " ++ target ++ ": " ++
            e.main.msg) e))
  ∧ TranslationManager.auto_translate (LangDetectDetector.detect oracle)
        (DeepTranslatorWrapper.translate backend) PyVal.none (.str "es") =
      .error (pyRaise .valueError "Text cannot be None")
  ∧ (∀ n : Int, TranslationManager.auto_translate
        (LangDetectDetector.detect oracle)
        (DeepTranslatorWrapper.translate backend) (.intVal n) (.str "es") =
      .error (pyRaise .valueError "Text must be a string, got int"))
  ∧ (∀ s : String, pyStrip s = "" → TranslationManager.auto_translate
        (LangDetectDetector.detect oracle)
        (DeepTranslatorWrapper.translate backend) (.str s) (.str "es") =
      .error (pyRaise .valueError
        "Text cannot be empty or contain only whitespace"))
  ∧ pyContains "Text cannot be empty or contain only whitespace" "empty" =
      true := by
  have htgt2 : ¬ (target = "" ∨ pyStrip target = "") := by
    rintro (h | h)
    · exact htgt (by rw [h]; rfl)
    · exact htgt h
  refine ⟨?_, ?_, ?_, rfl, fun n => rfl, ?_, by decide⟩
  · intro src out hdet htr
    simp only [TranslationManager.auto_translate]
    rw [if_neg htext, if_neg htgt2]
    simp only [hdet]
    simp only [htr]
  · intro e hdet
    have hcls := detect_error_valueError oracle horacle _ e hdet
    simp only [TranslationManager.auto_translate]
    rw [if_neg htext, if_neg htgt2]
    simp only [hdet]
    simp [hcls]
  · intro src e hdet htr
    simp only [TranslationManager.auto_translate]
    rw [if_neg htext, if_neg htgt2]
    simp only [hdet]
    simp only [htr]
  · intro s hsblank
    simp only [TranslationManager.auto_translate]
    rw [if_pos hsblank]

/-- Witness for C1's amended theorem: `auto_translate(" Hola ", " es ")`
with a French-answering model and a backend producing `"hola"` returns
exactly the backend's output on the trimmed text. -/
theorem claim_C1_witness :
    TranslationManager.auto_translate (LangDetectDetector.detect frenchOracle)
        (DeepTranslatorWrapper.translate holaBackend)
        (.str " Hola ") (.str " es ") = .ok "hola" :=
  (claim_C1_auto_translate frenchOracle holaBackend
    (fun _ _ h => nomatch h) " Hola " " es " (by decide) (by decide)).1
    "fr" "hola" rfl rfl

/-- C2: for every non-blank text and non-blank target,
`auto_translate_multilingual` succeeds with the newline-join of a line list
of the same length as the input's `splitlines`, processed positionally; each
blank input line is kept verbatim and each non-blank line stays non-blank
(assuming, as the data-model invariant states, that successful translator
output is never blank); a non-blank line whose detected language equals the
trimmed target passes through unchanged, any other non-blank line is
replaced by its individual translation; and any per-line detection or
translation error is swallowed, keeping the original line — the whole call
never fails. -/
theorem claim_C2_multilingual (detector : PyVal → Except PyExc String)
    (translator : PyVal → PyVal → PyVal → Except PyExc String)
    (text target : String)
    (htext : ¬ pyStrip text = "") (htgt : ¬ pyStrip target = "")
    (htr : ∀ v s out, translator v s (.str (pyStrip target)) = .ok out →
      ¬ pyStrip out = "") :
    TranslationManager.auto_translate_multilingual detector translator
        (.str text) (.str target) =
      .ok (String.intercalate "\n" ((pySplitlines text).map
        (TranslationManager.processLine detector translator (pyStrip target))))
  ∧ ((pySplitlines text).map
      (TranslationManager.processLine detector translator
        (pyStrip target))).length = (pySplitlines text).length
  ∧ (∀ (i : Nat) (hi : i < (pySplitlines text).length),
      ((pySplitlines text).map
          (TranslationManager.processLine detector translator
            (pyStrip target))).get
          ⟨i, by rw [List.length_map]; exact hi⟩ =
        TranslationManager.processLine detector translator (pyStrip target)
          ((pySplitlines text).get ⟨i, hi⟩))
  ∧ ∀ li : String,
      (pyStrip li = "" →
        TranslationManager.processLine detector translator (pyStrip target) li
          = li)
    ∧ (¬ pyStrip li = "" →
        ¬ pyStrip (TranslationManager.processLine detector translator
            (pyStrip target) li) = "")
    ∧ (∀ src, detector (.str (pyStrip li)) = .ok src → src = pyStrip target →
        TranslationManager.processLine detector translator (pyStrip target) li
          = li)
    ∧ (∀ src out, ¬ pyStrip li = "" →
        detector (.str (pyStrip li)) = .ok src → ¬ src = pyStrip target →
        translator (.str (pyStrip li)) (.str src) (.str (pyStrip target)) =
          .ok out →
        TranslationManager.processLine detector translator (pyStrip target) li
          = out)
    ∧ (∀ e, detector (.str (pyStrip li)) = .error e →
        TranslationManager.processLine detector translator (pyStrip target) li
          = li)
    ∧ (∀ src e, detector (.str (pyStrip li)) = .ok src →
        ¬ src = pyStrip target →
        translator (.str (pyStrip li)) (.str src) (.str (pyStrip target)) =
          .error e →
        TranslationManager.processLine detector translator (pyStrip target) li
          = li) := by
  refine ⟨multilingual_ok detector translator text target htext htgt,
    List.length_map _ _, ?_, ?_⟩
  · intro i hi
    simp
  · intro li
    refine ⟨?_, ?_, ?_, ?_, ?_, ?_⟩
    · intro hblank
      simp only [TranslationManager.processLine]
      rw [if_pos hblank]
    · intro hnb
      simp only [TranslationManager.processLine]
      rw [if_neg hnb]
      cases hdet : detector (.str (pyStrip li)) with
      | error e => exact hnb
      | ok src =>
        show ¬ pyStrip (if src = pyStrip target then li
          else match translator (.str (pyStrip li)) (.str src)
              (.str (pyStrip target)) with
            | .ok translated_line => translated_line
            | .error _ => li) = ""
        by_cases hsame : src = pyStrip target
        · rw [if_pos hsame]
          exact hnb
        · rw [if_neg hsame]
          cases htrr : translator (.str (pyStrip li)) (.str src)
              (.str (pyStrip target)) with
          | ok out => exact htr _ _ out htrr
          | error e => exact hnb
    · intro src hdet hsame
      simp only [TranslationManager.processLine]
      by_cases hblank : pyStrip li = ""
      · rw [if_pos hblank]
      · rw [if_neg hblank]
        simp only [hdet]
        rw [if_pos hsame]
    · intro src out hnb hdet hsame htrr
      simp only [TranslationManager.processLine]
      rw [if_neg hnb]
      simp only [hdet]
      rw [if_neg hsame]
      simp only [htrr]
    · intro e hdet
      simp only [TranslationManager.processLine]
      by_cases hblank : pyStrip li = ""
      · rw [if_pos hblank]
      · rw [if_neg hblank]
        simp only [hdet]
    · intro src e hdet hsame htrr
      simp only [TranslationManager.processLine]
      by_cases hblank : pyStrip li = ""
      · rw [if_pos hblank]
      · rw [if_neg hblank]
        simp only [hdet]
        rw [if_neg hsame]
        simp only [htrr]

/-- Witness for C2: the spec's own scenario `"Hello\n\nBonjour"` to `"en"`
with a detector answering `"en"` for the first line and `"fr"` otherwise and
a translator producing `"hola"`: three lines, the blank middle line kept,
line 1 passed through, line 3 replaced — concretely `"Hello\n\nhola"`. -/
theorem claim_C2_witness :
    TranslationManager.auto_translate_multilingual
        (fun v => if v = PyVal.str "Hello" then Except.ok "en" else Except.ok "fr")
        holaTranslator (.str "Hello\n\nBonjour") (.str "en") =
      .ok (String.intercalate "\n" ((pySplitlines "Hello\n\nBonjour").map
        (TranslationManager.processLine
          (fun v => if v = PyVal.str "Hello" then Except.ok "en" else Except.ok "fr")
          holaTranslator (pyStrip "en"))))
  ∧ TranslationManager.auto_translate_multilingual
        (fun v => if v = PyVal.str "Hello" then Except.ok "en" else Except.ok "fr")
        holaTranslator (.str "Hello\n\nBonjour") (.str "en") =
      .ok "Hello\n\nhola" := by
  constructor
  · exact (claim_C2_multilingual
      (fun v => if v = PyVal.str "Hello" then Except.ok "en" else Except.ok "fr")
      holaTranslator "Hello\n\nBonjour" "en" (by decide) (by decide)
      (by
        intro v s out h
        injection h with h2
        rw [← h2]
        decide)).1
  · rfl

/-- C10: on valid input `auto_translate_multilingual` always returns the
`"\n"`-join of the processed `splitlines` list, so `"\r\n"` and `"\r"`
separators are normalized to `"\n"` and a trailing terminator is dropped —
even when every line is kept unchanged (here: every line is already in the
target language), making the function differ from the identity on such
inputs. -/
theorem claim_C10_join_normalization :
    (∀ (detector : PyVal → Except PyExc String)
        (translator : PyVal → PyVal → PyVal → Except PyExc String)
        (s t : String), ¬ pyStrip s = "" → ¬ pyStrip t = "" →
      TranslationManager.auto_translate_multilingual detector translator
          (.str s) (.str t) =
        .ok (String.intercalate "\n" ((pySplitlines s).map
          (TranslationManager.processLine detector translator (pyStrip t)))))
  ∧ (TranslationManager.auto_translate_multilingual alwaysEnglishDetector
        holaTranslator (.str "a\r\nb") (.str "en") = .ok "a\nb"
      ∧ ¬ ("a\nb" = "a\r\nb"))
  ∧ (TranslationManager.auto_translate_multilingual alwaysEnglishDetector
        holaTranslator (.str "c\rd") (.str "en") = .ok "c\nd"
      ∧ ¬ ("c\nd" = "c\rd"))
  ∧ (TranslationManager.auto_translate_multilingual alwaysEnglishDetector
        holaTranslator (.str "e\nf\n") (.str "en") = .ok "e\nf"
      ∧ ¬ ("e\nf" = "e\nf\n")) := by
  refine ⟨?_, ⟨rfl, by decide⟩, ⟨rfl, by decide⟩, ⟨rfl, by decide⟩⟩
  intro detector translator s t hs ht
  exact multilingual_ok detector translator s t hs ht

/-- Witness for C10's universally quantified join property, at the CRLF
input with the always-English detector. -/
theorem claim_C10_witness :
    TranslationManager.auto_translate_multilingual alwaysEnglishDetector
        holaTranslator (.str "a\r\nb") (.str "en") =
      .ok (String.intercalate "\n" ((pySplitlines "a\r\nb").map
        (TranslationManager.processLine alwaysEnglishDetector holaTranslator
          (pyStrip "en")))) :=
  claim_C10_join_normalization.1 alwaysEnglishDetector holaTranslator
    "a\r\nb" "en" (by decide) (by decide)
